import Mathlib

/-!
Shallow embedding of the executor layer of the repository (module
squirm.execution): parameter sets, the three launcher variants
(BasicExecutor for mpiexec, SlurmExecutor for srun, LCLSFExecutor for
lrun), the process runner, the remote invocation encoder, and the
launcher selector.  Subprocess spawning is embedded by passing an
explicit exit-code oracle and returning the trace of spawned shell
strings; raised Python exceptions are embedded as Except errors.
-/

namespace Squirm

/-- Keys of an ExecParams parameter dictionary.  The Python constructor of
ExecParams takes exactly these four keyword arguments (num_tasks, num_nodes,
tasks_per_node, gpus_per_task); the spec calls them task_count, node_count,
tasks_per_node and gpus_per_task respectively. -/
inductive ParamName where
  | num_tasks
  | num_nodes
  | tasks_per_node
  | gpus_per_task
  deriving DecidableEq, Repr

/-- The param_dict built by ExecParams._create_param_dict: an insertion-ordered
mapping from parameter name to value (Python dicts preserve insertion order). -/
structure ExecParams where
  param_dict : List (ParamName × Nat)
  deriving DecidableEq, Repr

/-- Embedding of ExecParams._create_param_dict as invoked from
ExecParams.__init__: keyword arguments are visited in the fixed order
num_tasks, num_nodes, tasks_per_node, gpus_per_task, and entries whose value
is None are omitted. -/
def createParamDict (num_tasks num_nodes tasks_per_node gpus_per_task :
    Option Nat) : List (ParamName × Nat) :=
  (match num_tasks with
    | some v => [(ParamName.num_tasks, v)]
    | none => []) ++
  (match num_nodes with
    | some v => [(ParamName.num_nodes, v)]
    | none => []) ++
  (match tasks_per_node with
    | some v => [(ParamName.tasks_per_node, v)]
    | none => []) ++
  (match gpus_per_task with
    | some v => [(ParamName.gpus_per_task, v)]
    | none => [])

/-- Embedding of ExecParams.__init__. -/
def ExecParams.init (num_tasks num_nodes tasks_per_node gpus_per_task :
    Option Nat) : ExecParams :=
  ⟨createParamDict num_tasks num_nodes tasks_per_node gpus_per_task⟩

/-- Embedding of the ExecParamError exception (the spec calls it
UnsupportedParameterError); it carries the offending parameter name. -/
structure ExecParamError where
  param_name : ParamName
  deriving DecidableEq, Repr

/-- The closed set of executor variants (the spec calls them Basic, Slurm and
LSFDerived). -/
inductive ExecutorKind where
  | basic
  | slurm
  | lclsf
  deriving DecidableEq, Repr

/-- The parameter loop of BasicExecutor.get_command: iterate over param_dict
in order, appending flag tokens to exec_command, raising ExecParamError on
the first name other than num_tasks. -/
def BasicExecutor.add_params (exec_command : List String) :
    List (ParamName × Nat) → Except ExecParamError (List String)
  | [] => .ok exec_command
  | (name, value) :: rest =>
    match name with
    | ParamName.num_tasks =>
        BasicExecutor.add_params (exec_command ++ ["-n", toString value]) rest
    | _ => .error ⟨name⟩

/-- Embedding of BasicExecutor.get_command. -/
def BasicExecutor.get_command (command : List String)
    (exec_params : Option ExecParams) : Except ExecParamError (List String) :=
  let param_dict := match exec_params with
    | none => []
    | some p => p.param_dict
  match BasicExecutor.add_params ["mpiexec"] param_dict with
  | .error e => .error e
  | .ok exec_command => .ok (exec_command ++ command)

/-- The parameter loop of SlurmExecutor.get_command. -/
def SlurmExecutor.add_params (exec_command : List String) :
    List (ParamName × Nat) → Except ExecParamError (List String)
  | [] => .ok exec_command
  | (name, value) :: rest =>
    match name with
    | ParamName.num_tasks =>
        SlurmExecutor.add_params (exec_command ++ ["-n", toString value]) rest
    | ParamName.num_nodes =>
        SlurmExecutor.add_params (exec_command ++ ["-N", toString value]) rest
    | ParamName.tasks_per_node =>
        SlurmExecutor.add_params
          (exec_command ++ ["--ntasks-per-node=" ++ toString value]) rest
    | _ => .error ⟨name⟩

/-- Embedding of SlurmExecutor.get_command. -/
def SlurmExecutor.get_command (command : List String)
    (exec_params : Option ExecParams) : Except ExecParamError (List String) :=
  let param_dict := match exec_params with
    | none => []
    | some p => p.param_dict
  match SlurmExecutor.add_params ["srun"] param_dict with
  | .error e => .error e
  | .ok exec_command => .ok (exec_command ++ command)

/-- The parameter loop of LCLSFExecutor.get_command. -/
def LCLSFExecutor.add_params (exec_command : List String) :
    List (ParamName × Nat) → Except ExecParamError (List String)
  | [] => .ok exec_command
  | (name, value) :: rest =>
    match name with
    | ParamName.num_tasks =>
        LCLSFExecutor.add_params (exec_command ++ ["-n", toString value]) rest
    | ParamName.num_nodes =>
        LCLSFExecutor.add_params (exec_command ++ ["-N", toString value]) rest
    | ParamName.tasks_per_node =>
        LCLSFExecutor.add_params (exec_command ++ ["-T", toString value]) rest
    | ParamName.gpus_per_task =>
        LCLSFExecutor.add_params (exec_command ++ ["-g", toString value]) rest

/-- Embedding of LCLSFExecutor.get_command. -/
def LCLSFExecutor.get_command (command : List String)
    (exec_params : Option ExecParams) : Except ExecParamError (List String) :=
  let param_dict := match exec_params with
    | none => []
    | some p => p.param_dict
  match LCLSFExecutor.add_params ["lrun"] param_dict with
  | .error e => .error e
  | .ok exec_command => .ok (exec_command ++ command)

/-- Dynamic dispatch of get_command over the three executor classes. -/
def Executor.get_command : ExecutorKind → List String → Option ExecParams →
    Except ExecParamError (List String)
  | .basic => BasicExecutor.get_command
  | .slurm => SlurmExecutor.get_command
  | .lclsf => LCLSFExecutor.get_command

/-- Errors that can escape an executor invocation: an unsupported parameter
(ExecParamError), a nonzero exit status (ProcessError, carrying the raw exit
code subprocess.call returned), or a serialization failure inside
Executor.call (raised by pickle; the spec calls it SerializationError). -/
inductive ExecError where
  | execParam (e : ExecParamError)
  | process (exit_code : Int)
  | serialization
  deriving DecidableEq, Repr

/-- Embedding of the __call__ method shared by all three executor classes
(the spec calls it execute): build the command via get_command, join it into
one shell string, run it via subprocess.call(..., shell=True), and raise
ProcessError on a nonzero exit code.  The exit-code oracle runShell stands
for the child process; the returned list is the trace of shell strings
actually spawned, so an empty trace means no child process was started. -/
def Executor.execute (k : ExecutorKind) (runShell : String → Int)
    (command : List String) (exec_params : Option ExecParams) :
    Except ExecError Unit × List String :=
  match Executor.get_command k command exec_params with
  | .error e => (.error (.execParam e), [])
  | .ok exec_command =>
    let exit_code := runShell (String.intercalate " " exec_command)
    if exit_code ≠ 0 then
      (.error (.process exit_code), [String.intercalate " " exec_command])
    else
      (.ok (), [String.intercalate " " exec_command])

/-- The accepted-key set of each variant, read off the branch structure of
the three get_command methods. -/
def accepts : ExecutorKind → ParamName → Bool
  | .basic, ParamName.num_tasks => true
  | .basic, _ => false
  | .slurm, ParamName.gpus_per_task => false
  | .slurm, _ => true
  | .lclsf, _ => true

/-- The executable_name operation of the spec: the first token of the command
built with an empty user command and no parameters, exactly how
get_some_executor probes it (executor_type().get_command("")[0]). -/
def executable_name (k : ExecutorKind) : String :=
  match Executor.get_command k [] none with
  | .ok (x :: _) => x
  | _ => ""

/-- Transcription of one row-and-column entry of the flag table in section
4.1 of the spec: the tokens a variant emits for one present key. -/
def specFlag : ExecutorKind → ParamName → Nat → List String
  | _, ParamName.num_tasks, v => ["-n", toString v]
  | _, ParamName.num_nodes, v => ["-N", toString v]
  | .slurm, ParamName.tasks_per_node, v => ["--ntasks-per-node=" ++ toString v]
  | _, ParamName.tasks_per_node, v => ["-T", toString v]
  | _, ParamName.gpus_per_task, v => ["-g", toString v]

/-- Flag tokens for one optional key, empty when the key is absent. -/
def optSpecFlag (k : ExecutorKind) (name : ParamName) : Option Nat →
    List String
  | some v => specFlag k name v
  | none => []

/-- Transcription of the flag assembly described in section 4.1 of the spec:
for each present key, its flag tokens, in the fixed key order task_count,
node_count, tasks_per_node, gpus_per_task. -/
def specFlags (k : ExecutorKind)
    (num_tasks num_nodes tasks_per_node gpus_per_task : Option Nat) :
    List String :=
  optSpecFlag k ParamName.num_tasks num_tasks ++
  optSpecFlag k ParamName.num_nodes num_nodes ++
  optSpecFlag k ParamName.tasks_per_node tasks_per_node ++
  optSpecFlag k ParamName.gpus_per_task gpus_per_task

/-- Python objects handled by Executor.call, as far as the serialization
boundary observes them: atoms tagged with whether pickle can serialize them,
pairs (from which tuples and dicts are built), and the empty constructor. -/
inductive PyObj where
  | atom (id : Nat) (picklable : Bool)
  | pair (a b : PyObj)
  | nil
  deriving DecidableEq, Repr

/-- The positional-argument tuple that Python builds from *args. -/
def tupleOf (args : List PyObj) : PyObj :=
  args.foldr PyObj.pair PyObj.nil

/-- The keyword-argument dict that Python builds from **kwargs; keyword names
are abstracted to numeric identifiers (they are strings, always picklable). -/
def dictOf (kwargs : List (Nat × PyObj)) : PyObj :=
  kwargs.foldr (fun kv acc => PyObj.pair (PyObj.pair (PyObj.atom kv.1 true) kv.2) acc)
    PyObj.nil

/-- Whether pickle.dumps succeeds on an object: a container is serializable
exactly when all of its components are. -/
def serializable : PyObj → Bool
  | PyObj.atom _ p => p
  | PyObj.pair a b => serializable a && serializable b
  | PyObj.nil => true

/-- Modelled from the spec: the external serialize-then-base64 pipeline
(pickle.dumps followed by base64.b64encode, section 6 serialization boundary)
is an abstract reversible codec, so a successfully produced payload is
identified with the object it denotes; it fails exactly on unserializable
objects.  This embeds the embed helper inside Executor.call. -/
def embed (obj : PyObj) : Option PyObj :=
  if serializable obj then some obj else none

/-- A text-safe rendering of a payload, standing for the base64 text of the
pickled bytes (the claims never inspect the alphabet, only the
payload-to-object correspondence). -/
def b64Text : PyObj → String
  | PyObj.atom n true => "a" ++ toString n
  | PyObj.atom n false => "x" ++ toString n
  | PyObj.pair a b => "p" ++ b64Text a ++ b64Text b
  | PyObj.nil => "z"

/-- The structure of the calling_code string assembled by Executor.call: the
payload for func, and the payloads for args and kwargs, each present exactly
when the corresponding section of the string was emitted. -/
structure Snippet where
  funcPayload : PyObj
  argsPayload : Option PyObj
  kwargsPayload : Option PyObj
  deriving DecidableEq, Repr

/-- Embedding of the calling_code assembly inside Executor.call: embed func
(always), then embed the args tuple only when args is nonempty, then embed
the kwargs dict only when kwargs is nonempty; the first pickling failure
aborts the whole call.  The spec calls this operation encode_call. -/
def encode_call (func : PyObj) (args : List PyObj)
    (kwargs : List (Nat × PyObj)) : Option Snippet := do
  let f ← embed func
  let a ← if args.length > 0 then Option.map some (embed (tupleOf args))
    else some none
  let k ← if kwargs.length > 0 then Option.map some (embed (dictOf kwargs))
    else some none
  some ⟨f, a, k⟩

/-- The literal wrapped around one payload in the generated snippet. -/
def payloadLiteral (obj : PyObj) : String :=
  "pickle.loads(base64.b64decode(\"" ++ b64Text obj ++ "\".encode(\"ascii\")))"

/-- The generated calling_code string, concatenated exactly as Executor.call
concatenates it. -/
def Snippet.render (s : Snippet) : String :=
  "import pickle; import base64; " ++ payloadLiteral s.funcPayload ++ "(" ++
  (match s.argsPayload with
    | some a => "*" ++ payloadLiteral a ++ ", "
    | none => "") ++
  (match s.kwargsPayload with
    | some k => "**" ++ payloadLiteral k
    | none => "") ++
  ")"

/-- One function call performed by the remote interpreter. -/
structure PyCall where
  func : PyObj
  args : PyObj
  kwargs : PyObj
  deriving DecidableEq, Repr

/-- Modelled from the spec: the remote interpreter executes the generated
single-line snippet by deserializing each embedded payload and performing
exactly one call func(*args, **kwargs); a section omitted because args or
kwargs was empty contributes the empty tuple or dict, which is what calling
with no splat section means in Python.  The result is the trace of calls. -/
def Snippet.execute (s : Snippet) : List PyCall :=
  [⟨s.funcPayload, s.argsPayload.getD (tupleOf []), s.kwargsPayload.getD (dictOf [])⟩]

/-- Embedding of sys.executable (its concrete value is environment data the
claims never inspect). -/
def sys_executable : String := "python3"

/-- Embedding of Executor.run: wrap the code string in the mpi4py interpreter
invocation (with literal single quotes around the code) and execute it. -/
def Executor.run (k : ExecutorKind) (runShell : String → Int)
    (code_string : String) (exec_params : Option ExecParams) :
    Except ExecError Unit × List String :=
  Executor.execute k runShell
    [sys_executable, "-m", "mpi4py", "-c", "\x27" ++ code_string ++ "\x27"]
    exec_params

/-- Embedding of Executor.call: assemble calling_code (pickling func, args,
kwargs as needed; a pickling failure raises before anything is spawned) and
hand it to Executor.run. -/
def Executor.call (k : ExecutorKind) (runShell : String → Int) (func : PyObj)
    (args : List PyObj) (kwargs : List (Nat × PyObj))
    (exec_params : Option ExecParams) : Except ExecError Unit × List String :=
  match encode_call func args kwargs with
  | none => (.error .serialization, [])
  | some s => Executor.run k runShell s.render exec_params

/-- Errors of the launcher selector: an unknown explicit executor type name
(the KeyError escaping the dict lookup in make_executor, carrying the looked
up key; the spec calls it UnknownLauncherError), and the RuntimeError raised
when no launcher binary is detected (the spec calls it NoLauncherFoundError). -/
inductive SelectorError where
  | unknownLauncher (name : String)
  | noLauncherFound
  deriving DecidableEq, Repr

/-- The type_name_map dictionary inside make_executor. -/
def type_name_map : List (String × ExecutorKind) :=
  [("basic", ExecutorKind.basic), ("slurm", ExecutorKind.slurm),
   ("lclsf", ExecutorKind.lclsf)]

/-- Embedding of make_executor: look the name up in type_name_map and
instantiate the class; a missing key raises (KeyError carrying the name). -/
def make_executor (executor_type_name : String) :
    Except SelectorError ExecutorKind :=
  match type_name_map.lookup executor_type_name with
  | some k => .ok k
  | none => .error (.unknownLauncher executor_type_name)

/-- The executor_types_in_ascending_order list inside get_some_executor. -/
def executor_types_in_ascending_order : List (String × ExecutorKind) :=
  [("basic", ExecutorKind.basic), ("slurm", ExecutorKind.slurm),
   ("lclsf", ExecutorKind.lclsf)]

/-- The probe loop of get_some_executor: for each variant in ascending order,
take the first token of executor_type().get_command("") and test it on the
search path (which <executable>); a hit overwrites the current guess, and the
list is scanned to the end. -/
def probeLoop (pathHas : String → Bool) :
    List (String × ExecutorKind) → Option (String × ExecutorKind) →
    Option (String × ExecutorKind)
  | [], guess => guess
  | (name, k) :: rest, guess =>
    let executable := executable_name k
    probeLoop pathHas rest
      (if pathHas executable then some (name, k) else guess)

/-- Embedding of get_some_executor: use the SQUIRM_EXECUTOR_TYPE environment
value when set, otherwise probe the path; the returned Option String is the
advisory warning naming the guessed variant (none when the choice was
explicit), and failure to find any binary raises. -/
def get_some_executor (envVal : Option String) (pathHas : String → Bool) :
    Except SelectorError (ExecutorKind × Option String) :=
  match envVal with
  | some executor_type_name =>
    match make_executor executor_type_name with
    | .ok k => .ok (k, none)
    | .error e => .error e
  | none =>
    match probeLoop pathHas executor_types_in_ascending_order none with
    | some (guessed_name, guessed_type) => .ok (guessed_type, some guessed_name)
    | none => .error .noLauncherFound

/-- Two successive invocations of get_command on the same inputs, embedded as
a pair so that the repeated-call property can be stated about one value. -/
def build_command_twice (k : ExecutorKind) (command : List String)
    (exec_params : Option ExecParams) :
    Except ExecParamError (List String) × Except ExecParamError (List String) :=
  (Executor.get_command k command exec_params,
   Executor.get_command k command exec_params)

/-- The C5 sentence exactly as stated: for all serializable func, args and
kwargs, the encoder embeds a payload for each of the three independently
(so the generated line deserializes all three) and its execution performs
exactly one call func(*args, **kwargs). -/
def claimC5AsStated : Prop :=
  ∀ (func : PyObj) (args : List PyObj) (kwargs : List (Nat × PyObj)),
    serializable func = true → serializable (tupleOf args) = true →
    serializable (dictOf kwargs) = true →
    ∃ s : Snippet, encode_call func args kwargs = some s ∧
      s.funcPayload = func ∧
      s.argsPayload = some (tupleOf args) ∧
      s.kwargsPayload = some (dictOf kwargs) ∧
      s.execute = [⟨func, tupleOf args, dictOf kwargs⟩]

/-- C9: repeated calls to build_command with the same (command, params) return
identical token sequences; the embedding is a pure function of its inputs,
mirroring the absence of mutable state in the Python methods (get_command
builds a fresh list each call and only reads param_dict). -/
theorem buildCommandIdempotent (k : ExecutorKind) (command : List String)
    (exec_params : Option ExecParams) :
    (build_command_twice k command exec_params).1 =
      (build_command_twice k command exec_params).2 := rfl

/-- C10: for every variant, build_command with no parameter set and
build_command with an all-unset parameter set agree, and both return exactly
the launcher binary token followed by the user command, with no flags. -/
theorem buildCommandNoParams (k : ExecutorKind) (command : List String) :
    Executor.get_command k command none = .ok (executable_name k :: command) ∧
    Executor.get_command k command
        (some (ExecParams.init none none none none)) =
      .ok (executable_name k :: command) := by
  rcases k <;>
    simp [Executor.get_command, BasicExecutor.get_command,
      SlurmExecutor.get_command, LCLSFExecutor.get_command,
      BasicExecutor.add_params, SlurmExecutor.add_params,
      LCLSFExecutor.add_params, createParamDict, ExecParams.init,
      executable_name]

/-- C3: execute first builds the full command; when building succeeds it
spawns exactly one shell-interpreted child (the space-joined command string)
and waits for its exit code: zero means success, and any nonzero exit status
(signal terminations included, since subprocess.call folds them into the
returned integer) becomes a ProcessError carrying exactly that status. -/
theorem executeExitCode (k : ExecutorKind) (runShell : String → Int)
    (command : List String) (exec_params : Option ExecParams)
    (exec_command : List String)
    (h : Executor.get_command k command exec_params = .ok exec_command) :
    Executor.execute k runShell command exec_params =
      (if runShell (String.intercalate " " exec_command) ≠ 0 then
         .error (.process (runShell (String.intercalate " " exec_command)))
       else .ok (),
       [String.intercalate " " exec_command]) := by
  simp only [Executor.execute, h]
  split <;> rfl

/-- Witness for C3 at a concrete input: the basic variant running a command
whose shell exit code is 0. -/
theorem executeExitCode_witness :
    Executor.execute ExecutorKind.basic (fun _ => (0 : Int)) ["ls"] none =
      (.ok (), ["mpiexec ls"]) := by
  have h := executeExitCode ExecutorKind.basic (fun _ => (0 : Int)) ["ls"] none
    ["mpiexec", "ls"] (by rfl)
  simpa using h

/-- C1: whenever every key present in the parameter set is accepted by the
variant, build_command succeeds and returns the launcher binary token,
then for each present key exactly the table flags of section 4.1 in the fixed
key order task_count, node_count, tasks_per_node, gpus_per_task, then the
user command tokens unchanged. -/
theorem buildCommandTable (k : ExecutorKind)
    (num_tasks num_nodes tasks_per_node gpus_per_task : Option Nat)
    (command : List String)
    (h : ∀ pr ∈ createParamDict num_tasks num_nodes tasks_per_node
      gpus_per_task, accepts k pr.1 = true) :
    Executor.get_command k command
        (some (ExecParams.init num_tasks num_nodes tasks_per_node
          gpus_per_task)) =
      .ok (executable_name k ::
        (specFlags k num_tasks num_nodes tasks_per_node gpus_per_task ++
          command)) := by
  rcases k <;> rcases num_tasks <;> rcases num_nodes <;>
    rcases tasks_per_node <;> rcases gpus_per_task <;>
    simp_all [Executor.get_command, BasicExecutor.get_command,
      SlurmExecutor.get_command, LCLSFExecutor.get_command,
      BasicExecutor.add_params, SlurmExecutor.add_params,
      LCLSFExecutor.add_params, createParamDict, ExecParams.init,
      executable_name, specFlags, optSpecFlag, specFlag, accepts]

/-- Witness for C1 at a concrete input: the Slurm variant with task_count 4
and node_count 2. -/
theorem buildCommandTable_witness :
    Executor.get_command ExecutorKind.slurm ["./app"]
        (some (ExecParams.init (some 4) (some 2) none none)) =
      .ok (executable_name ExecutorKind.slurm ::
        (specFlags ExecutorKind.slurm (some 4) (some 2) none none ++
          ["./app"])) :=
  buildCommandTable ExecutorKind.slurm (some 4) (some 2) none none ["./app"]
    (by decide)

/-- C2: whenever the parameter set contains a key the variant does not
accept, build_command fails with ExecParamError naming the first such key in
the fixed order task_count, node_count, tasks_per_node, gpus_per_task, no
command is returned, and execute fails the same way with an empty spawn
trace, so no child process is started. -/
theorem buildCommandUnsupported (k : ExecutorKind)
    (num_tasks num_nodes tasks_per_node gpus_per_task : Option Nat)
    (command : List String) (runShell : String → Int) (pr0 : ParamName × Nat)
    (h : (createParamDict num_tasks num_nodes tasks_per_node
      gpus_per_task).find? (fun pr => !(accepts k pr.1)) = some pr0) :
    Executor.get_command k command
        (some (ExecParams.init num_tasks num_nodes tasks_per_node
          gpus_per_task)) = .error ⟨pr0.1⟩ ∧
    Executor.execute k runShell command
        (some (ExecParams.init num_tasks num_nodes tasks_per_node
          gpus_per_task)) = (.error (.execParam ⟨pr0.1⟩), []) := by
  obtain ⟨n0, v0⟩ := pr0
  have hg : Executor.get_command k command
      (some (ExecParams.init num_tasks num_nodes tasks_per_node
        gpus_per_task)) = .error ⟨n0⟩ := by
    rcases k <;> rcases num_tasks <;> rcases num_nodes <;>
      rcases tasks_per_node <;> rcases gpus_per_task <;>
      simp_all [Executor.get_command, BasicExecutor.get_command,
        SlurmExecutor.get_command, LCLSFExecutor.get_command,
        BasicExecutor.add_params, SlurmExecutor.add_params,
        LCLSFExecutor.add_params, createParamDict, ExecParams.init,
        accepts, List.find?]
  exact ⟨hg, by simp [Executor.execute, hg]⟩

/-- Witness for C2 at a concrete input: the basic variant given node_count 2,
which it does not accept. -/
theorem buildCommandUnsupported_witness :
    Executor.get_command ExecutorKind.basic ["echo"]
        (some (ExecParams.init none (some 2) none none)) =
      .error ⟨ParamName.num_nodes⟩ ∧
    Executor.execute ExecutorKind.basic (fun _ => (0 : Int)) ["echo"]
        (some (ExecParams.init none (some 2) none none)) =
      (.error (.execParam ⟨ParamName.num_nodes⟩), []) :=
  buildCommandUnsupported ExecutorKind.basic none (some 2) none none ["echo"]
    (fun _ => (0 : Int)) (ParamName.num_nodes, 2) (by decide)

/-- Helper: the calling-code assembly fails (pickling raises) as soon as one
of func, the args tuple, or the kwargs dict is unserializable. -/
lemma encode_call_eq_none (func : PyObj) (args : List PyObj)
    (kwargs : List (Nat × PyObj))
    (h : serializable func = false ∨ serializable (tupleOf args) = false ∨
      serializable (dictOf kwargs) = false) :
    encode_call func args kwargs = none := by
  rcases h with hf | ha | hk
  · simp [encode_call, embed, hf]
  · rcases args with _ | ⟨a, as⟩
    · simp [tupleOf, serializable] at ha
    · cases hf : serializable func <;>
        simp [encode_call, embed, hf, ha]
  · rcases kwargs with _ | ⟨kv, kvs⟩
    · simp [dictOf, serializable] at hk
    · rcases args with _ | ⟨a, as⟩ <;>
        cases hf : serializable func <;>
        simp [encode_call, embed, hf, hk]

/-- C4: when func, the positional-argument tuple, or the keyword-argument
dict cannot be serialized, Executor.call fails with the serialization error
immediately, and the spawn trace is empty: no child process is started. -/
theorem callSerializationFailure (k : ExecutorKind) (runShell : String → Int)
    (func : PyObj) (args : List PyObj) (kwargs : List (Nat × PyObj))
    (exec_params : Option ExecParams)
    (h : serializable func = false ∨ serializable (tupleOf args) = false ∨
      serializable (dictOf kwargs) = false) :
    Executor.call k runShell func args kwargs exec_params =
      (.error .serialization, []) := by
  have hnone := encode_call_eq_none func args kwargs h
  simp [Executor.call, hnone]

/-- Witness for C4 at a concrete input: an unpicklable function object. -/
theorem callSerializationFailure_witness :
    Executor.call ExecutorKind.basic (fun _ => (0 : Int))
      (PyObj.atom 0 false) [] [] none = (.error .serialization, []) :=
  callSerializationFailure ExecutorKind.basic (fun _ => (0 : Int))
    (PyObj.atom 0 false) [] [] none (Or.inl rfl)

/-- C5 counterexample: the claim as stated is false, because the encoder
emits no kwargs payload at all when kwargs is empty (and likewise no args
payload when args is empty), so the generated line does not deserialize all
three; at func = atom 0, args = [atom 1], kwargs = {} the snippet has
kwargsPayload = none. -/
theorem encodeCallClaimFalse : ¬ claimC5AsStated := by
  intro h
  obtain ⟨s, hs, -, -, hkw, -⟩ :=
    h (PyObj.atom 0 true) [PyObj.atom 1 true] [] rfl rfl rfl
  have hev : encode_call (PyObj.atom 0 true) [PyObj.atom 1 true] [] =
      some ⟨PyObj.atom 0 true, some (tupleOf [PyObj.atom 1 true]), none⟩ :=
    rfl
  rw [hev] at hs
  injection hs with h2
  rw [← h2] at hkw
  simp at hkw

/-- C5 as amended: func is always serialized into its own payload, while args
and kwargs each get their own independent payload exactly when nonempty (an
empty args tuple or kwargs dict is omitted from the generated line, which is
call-equivalent); executing the generated single line deserializes the
embedded payloads and calls func with the original positional and keyword
arguments exactly once. -/
theorem encodeCallRoundtrip (func : PyObj) (args : List PyObj)
    (kwargs : List (Nat × PyObj))
    (hf : serializable func = true)
    (ha : serializable (tupleOf args) = true)
    (hk : serializable (dictOf kwargs) = true) :
    encode_call func args kwargs =
      some ⟨func,
        (if args.length > 0 then some (tupleOf args) else none),
        (if kwargs.length > 0 then some (dictOf kwargs) else none)⟩ ∧
    Snippet.execute
        ⟨func,
         (if args.length > 0 then some (tupleOf args) else none),
         (if kwargs.length > 0 then some (dictOf kwargs) else none)⟩ =
      [⟨func, tupleOf args, dictOf kwargs⟩] := by
  rcases args with _ | ⟨a, as⟩ <;> rcases kwargs with _ | ⟨kv, kvs⟩ <;>
    simp [encode_call, embed, Snippet.execute, hf, ha, hk]

/-- Witness for C5 as amended, at a function with one positional and one
keyword argument. -/
theorem encodeCallRoundtrip_witness :
    encode_call (PyObj.atom 0 true) [PyObj.atom 1 true]
        [(2, PyObj.atom 3 true)] =
      some ⟨PyObj.atom 0 true,
        some (tupleOf [PyObj.atom 1 true]),
        some (dictOf [(2, PyObj.atom 3 true)])⟩ ∧
    Snippet.execute
        ⟨PyObj.atom 0 true,
         some (tupleOf [PyObj.atom 1 true]),
         some (dictOf [(2, PyObj.atom 3 true)])⟩ =
      [⟨PyObj.atom 0 true, tupleOf [PyObj.atom 1 true],
        dictOf [(2, PyObj.atom 3 true)]⟩] := by
  have h := encodeCallRoundtrip (PyObj.atom 0 true) [PyObj.atom 1 true]
    [(2, PyObj.atom 3 true)] rfl rfl rfl
  simpa using h

/-- C6: with no explicit launcher name configured, the selector checks each
variant binary (mpiexec, srun, lrun) on the search path in the fixed
ascending order Basic, Slurm, LSFDerived, scans the whole list, returns the
last variant whose binary was found (later entries win when several are
present), and emits an advisory warning naming the guessed variant. -/
theorem getSomeExecutorGuess (pathHas : String → Bool) :
    get_some_executor none pathHas =
      (if pathHas "lrun" then .ok (ExecutorKind.lclsf, some "lclsf")
       else if pathHas "srun" then .ok (ExecutorKind.slurm, some "slurm")
       else if pathHas "mpiexec" then .ok (ExecutorKind.basic, some "basic")
       else .error .noLauncherFound) := by
  cases hl : pathHas "lrun" <;> cases hs : pathHas "srun" <;>
    cases hb : pathHas "mpiexec" <;>
    simp [get_some_executor, probeLoop, executor_types_in_ascending_order,
      executable_name, Executor.get_command, BasicExecutor.get_command,
      SlurmExecutor.get_command, LCLSFExecutor.get_command,
      BasicExecutor.add_params, SlurmExecutor.add_params,
      LCLSFExecutor.add_params, hl, hs, hb]

/-- C7: an explicit launcher name selects the corresponding variant directly
(basic, slurm, lclsf), the Slurm variant probes and assembles commands under
the binary name srun, and any name outside the closed set fails with the
unknown-launcher error carrying that name. -/
theorem makeExecutorExplicit (name : String) :
    make_executor "basic" = .ok ExecutorKind.basic ∧
    make_executor "slurm" = .ok ExecutorKind.slurm ∧
    make_executor "lclsf" = .ok ExecutorKind.lclsf ∧
    executable_name ExecutorKind.slurm = "srun" ∧
    (name ≠ "basic" → name ≠ "slurm" → name ≠ "lclsf" →
      make_executor name = .error (.unknownLauncher name)) := by
  refine ⟨rfl, rfl, rfl, rfl, fun h1 h2 h3 => ?_⟩
  have e1 : (name == "basic") = false := by
    simp only [beq_eq_false_iff_ne]
    exact h1
  have e2 : (name == "slurm") = false := by
    simp only [beq_eq_false_iff_ne]
    exact h2
  have e3 : (name == "lclsf") = false := by
    simp only [beq_eq_false_iff_ne]
    exact h3
  simp [make_executor, type_name_map, List.lookup, e1, e2, e3]

/-- Witness for C7 at a concrete input: an unknown launcher name. -/
theorem makeExecutorExplicit_witness :
    make_executor "pbs" = .error (.unknownLauncher "pbs") :=
  (makeExecutorExplicit "pbs").2.2.2.2 (by decide) (by decide) (by decide)

/-- C8: during auto-selection, when none of the three launcher binaries is on
the search path, the selector fails with the no-launcher-found error and
returns no fallback variant. -/
theorem getSomeExecutorNoneFound (pathHas : String → Bool)
    (hb : pathHas "mpiexec" = false) (hs : pathHas "srun" = false)
    (hl : pathHas "lrun" = false) :
    get_some_executor none pathHas = .error .noLauncherFound := by
  simp [get_some_executor, probeLoop, executor_types_in_ascending_order,
    executable_name, Executor.get_command, BasicExecutor.get_command,
    SlurmExecutor.get_command, LCLSFExecutor.get_command,
    BasicExecutor.add_params, SlurmExecutor.add_params,
    LCLSFExecutor.add_params, hb, hs, hl]

/-- Witness for C8 at a concrete input: a search path with no binaries. -/
theorem getSomeExecutorNoneFound_witness :
    get_some_executor none (fun _ => false) = .error .noLauncherFound :=
  getSomeExecutorNoneFound (fun _ => false) rfl rfl rfl

end Squirm
